import Mathlib

/-!
Shallow embedding of `report_missing.py` (pensiones-simulador, JSONANTIGUO):
the data-completeness validation engine.  Python dicts are modelled as
association lists keeping insertion order, Python floats as exact rationals
extended with NaN and the two infinities, and JSON/Python dynamic values as
an inductive type.  Fallible loaders return `Except`.
-/

namespace ReportMissing

/-- Python float values as they occur in this program: NaN, ±infinity, or a
finite value, kept as the exact rational `num / den` of the parsed literal
(not necessarily reduced; rounding of decimal literals to binary doubles is
not modelled, no claim depends on the numeric value). -/
inductive PyFloat where
  | nan
  | inf
  | ninf
  | finite (num : Int) (den : Nat)
deriving DecidableEq

/-- `math.isnan` on a stored float. -/
def PyFloat.isnan : PyFloat → Bool
  | .nan => true
  | _ => false

/-- Python/JSON dynamic values reachable from the country bundle. -/
inductive Value where
  | vnull
  | vbool (b : Bool)
  | vint (n : Int)
  | vfloat (x : PyFloat)
  | vstr (s : String)
  | vlist (xs : List Value)
  | vdict (kvs : List (String × Value))

/-- `isinstance(v, dict)`. -/
def Value.isDict : Value → Bool
  | .vdict _ => true
  | _ => false

/-- The characters stripped by Python's default `str.strip()` (ASCII part;
non-ASCII Unicode whitespace is outside the modelled domain). -/
def pyIsSpace (c : Char) : Bool :=
  c == ' ' || c == '\t' || c == '\n' || c == '\r' || c == '\x0b' || c == '\x0c'

/-- Python `s.strip()`. -/
def pyStrip (s : String) : String :=
  String.mk (((s.data.dropWhile pyIsSpace).reverse.dropWhile pyIsSpace).reverse)

/-- `is_missing_value` (report_missing.py lines 37-45): missing means `None`,
a float NaN, or a string that strips to empty. -/
def is_missing_value : Value → Bool
  | .vnull => true
  | .vfloat x => x.isnan
  | .vstr s => pyStrip s == ""
  | _ => false

/-- Value of a non-empty all-digit character list. -/
def digitsVal (cs : List Char) : Nat :=
  cs.foldl (fun n c => 10 * n + (c.toNat - '0'.toNat)) 0

/-- Parse a non-empty run of ASCII digits. -/
def parseDigits (cs : List Char) : Option Nat :=
  if cs ≠ [] ∧ cs.all Char.isDigit then some (digitsVal cs) else none

/-- `_safe_int` (lines 73-77): Python `int(s)` on a string, `None` on failure.
Python strips whitespace and accepts an optional sign; underscore digit
grouping and non-ASCII digits, which CPython also accepts, are outside the
modelled domain. -/
def safe_int (s : String) : Option Int :=
  match (pyStrip s).data with
  | '+' :: rest => (parseDigits rest).map Int.ofNat
  | '-' :: rest => (parseDigits rest).map (fun n => -(n : Int))
  | rest => (parseDigits rest).map Int.ofNat

/-- Integer-part/fraction-part mantissa of a float literal: `digits`,
`digits.digits`, `digits.`, or `.digits`.  Returns the mantissa's digit value
and the number of fraction digits (the mantissa is value / 10^fracLen). -/
def parseMantissa (cs : List Char) : Option (Nat × Nat) :=
  let ip := cs.takeWhile (fun c => c != '.')
  match cs.dropWhile (fun c => c != '.') with
  | [] =>
    if ip ≠ [] ∧ ip.all Char.isDigit then some (digitsVal ip, 0) else none
  | _ :: fp =>
    if (ip ≠ [] ∨ fp ≠ []) ∧ ip.all Char.isDigit ∧ fp.all Char.isDigit then
      some (digitsVal ip * 10 ^ fp.length + digitsVal fp, fp.length)
    else none

/-- Assemble the parsed float `sgn * m / 10^fd * 10^e` as an exact fraction. -/
def mkFinite (sgn : Int) (m : Nat) (fd : Nat) (e : Int) : PyFloat :=
  let p : Int := e - (fd : Int)
  if 0 ≤ p then PyFloat.finite (sgn * ((m * 10 ^ p.toNat : Nat) : Int)) 1
  else PyFloat.finite (sgn * (m : Int)) (10 ^ (-p).toNat)

/-- Optional sign; returns the sign as `1` or `-1` and the remaining characters. -/
def splitSign (cs : List Char) : Int × List Char :=
  match cs with
  | '+' :: rest => (1, rest)
  | '-' :: rest => (-1, rest)
  | rest => (1, rest)

/-- Python `float(s)` on a stripped string, `none` on failure: optional sign,
then `inf`/`infinity`/`nan` (case-insensitive) or a decimal mantissa with an
optional exponent.  Exact rational semantics: rounding to binary doubles and
overflow of huge literals to infinity are not modelled, underscore grouping is
outside the modelled domain. -/
def pyFloatOfString (s : String) : Option PyFloat :=
  let (sgn, body) := splitSign (pyStrip s).data
  let lb := body.map Char.toLower
  if lb = "inf".data ∨ lb = "infinity".data then
    some (if sgn = 1 then PyFloat.inf else PyFloat.ninf)
  else if lb = "nan".data then some PyFloat.nan
  else
    let mant := body.takeWhile (fun c => c != 'e' && c != 'E')
    match body.dropWhile (fun c => c != 'e' && c != 'E') with
    | [] => (parseMantissa mant).map (fun m => mkFinite sgn m.1 m.2 0)
    | _ :: er =>
      let (esgn, ed) := splitSign er
      if ed ≠ [] ∧ ed.all Char.isDigit then
        (parseMantissa mant).map (fun m =>
          mkFinite sgn m.1 m.2 (esgn * (digitsVal ed : Int)))
      else none

/-! ### Association-list model of Python dicts (insertion-ordered). -/

/-- `d[k] = v`: replace in place if the key exists, else append. -/
def aset {α : Type} (k : String) (v : α) : List (String × α) → List (String × α)
  | [] => [(k, v)]
  | (k2, w) :: rest => if k2 = k then (k2, v) :: rest else (k2, w) :: aset k v rest

/-- `d.setdefault(k, dflt)` followed by an in-place update of `d[k]` by `f`. -/
def updWith {α : Type} (d : List (String × α)) (k : String) (dflt : α) (f : α → α) :
    List (String × α) :=
  aset k (f ((d.lookup k).getD dflt)) d

/-- `s.add(x)` on a Python set, modelled as a duplicate-free list.  The
source's hash-set iteration order is unspecified; it is modelled as
first-insertion order (no claim depends on the order). -/
def addSet (l : List String) (x : String) : List String :=
  if l.contains x then l else l ++ [x]

/-! ### Demographic index (`load_oecd_population_csv`, lines 80-136). -/

/-- `age -> value` map. -/
abbrev AgesMap := List (String × PyFloat)
/-- `sex -> age -> value` map. -/
abbrev SexMap := List (String × AgesMap)
/-- `year -> sex -> age -> value` map. -/
abbrev YearMap := List (String × SexMap)

/-- The index returned by `load_oecd_population_csv`. -/
structure OecdIdx where
  by_iso3 : List (String × YearMap)
  years_by_iso3 : List (String × List String)
  sexes_by_iso3 : List (String × List String)
  required_ages : List String

/-- One CSV row as seen through `csv.DictReader`: each required column's raw
cell, `none` when the row is shorter than the header. -/
structure CsvRow where
  refArea : Option String
  sex : Option String
  age : Option String
  timePeriod : Option String
  obsValue : Option String
deriving DecidableEq

/-- The five required column names (a set in the source; listed in the
source's literal order). -/
def requiredCols : List String := ["REF_AREA", "SEX", "AGE", "TIME_PERIOD", "OBS_VALUE"]

/-- The loop body of `load_oecd_population_csv` (lines 108-129): skip rows
with a blank key field; record period and sex for the region; store the value
(NaN when unparseable) only for required age bands. -/
def loadStep (required_ages : List String) (st : OecdIdx) (row : CsvRow) : OecdIdx :=
  let iso3 := pyStrip (row.refArea.getD "")
  let sex := pyStrip (row.sex.getD "")
  let age := pyStrip (row.age.getD "")
  let year := pyStrip (row.timePeriod.getD "")
  let val_s := pyStrip (row.obsValue.getD "")
  if iso3 = "" ∨ year = "" ∨ sex = "" ∨ age = "" then st
  else
    let st :=
      { st with
        years_by_iso3 := updWith st.years_by_iso3 iso3 [] (fun l => addSet l year)
        sexes_by_iso3 := updWith st.sexes_by_iso3 iso3 [] (fun l => addSet l sex) }
    if ¬ required_ages.contains age then st
    else
      let v := (pyFloatOfString val_s).getD PyFloat.nan
      { st with
        by_iso3 := updWith st.by_iso3 iso3 [] (fun ym =>
          updWith ym year [] (fun sm =>
            updWith sm sex [] (fun am => aset age v am))) }

/-- `load_oecd_population_csv` (lines 80-136): schema check on the header,
then a fold of `loadStep` over the rows.  Raising `ValueError` is modelled as
`Except.error`. -/
def load_oecd_population_csv (fieldnames : List String) (rows : List CsvRow)
    (required_ages : List String) : Except String OecdIdx :=
  if fieldnames = [] then
    Except.error "CSV sin cabecera (fieldnames vacios)."
  else if requiredCols.filter (fun c => ¬ fieldnames.contains c) ≠ [] then
    Except.error "CSV: faltan columnas requeridas"
  else
    Except.ok (rows.foldl (loadStep required_ages)
      { by_iso3 := [], years_by_iso3 := [], sexes_by_iso3 := [],
        required_ages := required_ages })

/-! ### Age-coverage check (`check_oecd_csv_for_iso3`, lines 139-212). -/

/-- Python `max` over strings: fold keeping the current maximum, replacing it
only on a strictly greater element. -/
def pyMaxStr (xs : List String) (x0 : String) : String :=
  xs.foldl (fun best y => if best < y then y else best) x0

/-- Python `max(..., key=lambda t: t[1])` over `(string, int)` pairs: the
first pair with the maximal key wins ties. -/
def pyMaxByInt (ps : List (String × Int)) (p0 : String × Int) : String × Int :=
  ps.foldl (fun best y => if best.2 < y.2 then y else best) p0

/-- Latest-period selection (lines 154-164, incl. the empty-set early return
at 155-156): `none` on an empty period list; the maximum by integer value
when every period parses as an integer; otherwise the lexicographic string
maximum. -/
def latestPeriod (years_list : List String) : Option String :=
  match years_list with
  | [] => none
  | y :: ys =>
    if (y :: ys).all (fun s => (safe_int s).isSome) then
      some (pyMaxByInt (ys.map (fun s => (s, (safe_int s).getD 0)))
        (y, (safe_int y).getD 0)).1
    else
      some (pyMaxStr ys y)

/-- `has_all_ages` (lines 168-178): for one sex code at the chosen year,
the required age bands that are absent or stored as NaN, and whether there
are none. -/
def has_all_ages (req : List String) (year_block : SexMap) (sex_code : String) :
    Bool × List String :=
  let ages_map := (year_block.lookup sex_code).getD []
  let missing := req.filter (fun a =>
    match ages_map.lookup a with
    | none => true
    | some v => v.isnan)
  (missing.isEmpty, missing)

/-- `check_oecd_csv_for_iso3` (lines 139-212): usable-flag, resolved latest
period, and issue list. -/
def check_oecd_csv_for_iso3 (iso3 : String) (idx : OecdIdx) :
    Bool × Option String × List String :=
  let req := idx.required_ages
  let years := (idx.years_by_iso3.lookup iso3).getD []
  match latestPeriod years with
  | none => (false, none, ["sin_filas_iso3"])
  | some latest_year =>
    let year_block := (((idx.by_iso3.lookup iso3).getD []).lookup latest_year).getD []
    let tT := has_all_ages req year_block "_T"
    if tT.1 then (true, some latest_year, [])
    else
      let tM := has_all_ages req year_block "_M"
      let tF := has_all_ages req year_block "_F"
      if tM.1 && tF.1 then (true, some latest_year, [])
      else
        let issues :=
          (if (year_block.lookup "_T").isNone then ["falta_sex_T"]
           else if tT.2.isEmpty then [] else ["faltan_edades_T:" ++ String.intercalate "|" tT.2])
          ++ (if (year_block.lookup "_M").isNone then ["falta_sex_M"]
           else if tM.2.isEmpty then [] else ["faltan_edades_M:" ++ String.intercalate "|" tM.2])
          ++ (if (year_block.lookup "_F").isNone then ["falta_sex_F"]
           else if tF.2.isEmpty then [] else ["faltan_edades_F:" ++ String.intercalate "|" tF.2])
        (false, some latest_year, issues)

/-- `issue_key` (lines 215-217): the stripped portion of an issue string
before its first `:`. -/
def issue_key (s : String) : String :=
  pyStrip ((s.splitOn ":").headD s)

/-! ### Per-country analyzer and main loop (lines 28-34, 53-70, 220-322). -/

/-- `ISO2_TO_ISO3` (lines 28-34), in the source's literal order. -/
def ISO2_TO_ISO3 : List (String × String) :=
  [("AT", "AUT"), ("AU", "AUS"), ("BE", "BEL"), ("CA", "CAN"), ("CH", "CHE"),
   ("CL", "CHL"), ("CO", "COL"), ("CR", "CRI"), ("CZ", "CZE"),
   ("DE", "DEU"), ("DK", "DNK"), ("EE", "EST"), ("ES", "ESP"), ("FI", "FIN"),
   ("FR", "FRA"), ("GB", "GBR"), ("GR", "GRC"), ("HU", "HUN"),
   ("IE", "IRL"), ("IL", "ISR"), ("IS", "ISL"), ("IT", "ITA"), ("JP", "JPN"),
   ("KR", "KOR"), ("LT", "LTU"), ("LU", "LUX"), ("LV", "LVA"),
   ("MX", "MEX"), ("NL", "NLD"), ("NO", "NOR"), ("NZ", "NZL"), ("PL", "POL"),
   ("PT", "PRT"), ("SE", "SWE"), ("SI", "SVN"), ("SK", "SVK"),
   ("TR", "TUR"), ("US", "USA")]

/-- Python `.upper()` (ASCII; the region codes in play are ASCII). -/
def pyUpper (s : String) : String := s.toUpper

/-- `dict.get(k)` on a `Value` known to be a dict; `none` on non-dicts (the
source would raise there, outside the modelled domain). -/
def dictGet (v : Value) (k : String) : Option Value :=
  match v with
  | .vdict kvs => kvs.lookup k
  | _ => none

/-- `entry.get("country") or {}`: the nested country dict, `{}` when absent,
falsy, or (outside the modelled domain, where the source would raise on the
subsequent `.get`) not a dict. -/
def countryOf (entry : Value) : List (String × Value) :=
  match dictGet entry "country" with
  | some (.vdict kvs) => kvs
  | _ => []

/-- `entry.get("inputs") or {}` (line 64), same conventions as `countryOf`. -/
def inputsOf (entry : Value) : List (String × Value) :=
  match dictGet entry "inputs" with
  | some (.vdict kvs) => kvs
  | _ => []

/-- Lines 60-62: `entry.get("missing_fields") or []`, with a bare string
normalized to a one-element list.  Non-string list members are outside the
modelled domain (the source would raise in the later `sorted`). -/
def declaredMissingOf (entry : Value) : List String :=
  match dictGet entry "missing_fields" with
  | some (.vstr s) => if s.isEmpty then [] else [s]
  | some (.vlist xs) => xs.filterMap (fun v => match v with | .vstr s => some s | _ => none)
  | _ => []

/-- Python `sorted(set(l))` for strings: ascending and duplicate-free. -/
def sortedSet (l : List String) : List String :=
  (l.dedup).mergeSort (fun a b => a ≤ b)

/-- `analyze_country` (lines 53-70): code, display name, sorted declared
missing set, sorted computed-missing-inputs set.  A truthy non-string `name`
would be printed via its repr by the source; it is modelled as the fallback
code. -/
def analyze_country (iso2 : String) (entry : Value) (required_inputs : List String) :
    String × String × List String × List String :=
  let name :=
    match (countryOf entry).lookup "name" with
    | some (.vstr s) => if s.isEmpty then iso2 else s
    | _ => iso2
  let declared_missing := declaredMissingOf entry
  let missing_inputs := required_inputs.filter (fun k =>
    match (inputsOf entry).lookup k with
    | none => true
    | some v => is_missing_value v)
  (iso2, name, sortedSet declared_missing, sortedSet missing_inputs)

/-- Line 299: `(entry.get("country") or {}).get("iso3") or ISO2_TO_ISO3.get(iso2)`.
A truthy non-string embedded `iso3` is outside the modelled domain. -/
def resolveIso3 (entry : Value) (iso2 : String) : Option String :=
  match (countryOf entry).lookup "iso3" with
  | some (.vstr s) => if s.isEmpty then ISO2_TO_ISO3.lookup iso2 else some s
  | _ => ISO2_TO_ISO3.lookup iso2

/-- One analysis row (the tuple appended at line 315). -/
structure CRow where
  iso2 : String
  name : String
  declared : List String
  missingInputs : List String
  iso3 : Option String
  csvYear : Option String
  csvIssues : List String
deriving DecidableEq

/-- `collections.Counter` increment, insertion-ordered like a Python dict. -/
def cinc (c : List (String × Nat)) (k : String) : List (String × Nat) :=
  match c with
  | [] => [(k, 1)]
  | (k2, n) :: rest => if k2 = k then (k2, n + 1) :: rest else (k2, n) :: cinc rest k

/-- `for k in ks: c[k] += 1`. -/
def cincMany (c : List (String × Nat)) (ks : List String) : List (String × Nat) :=
  ks.foldl cinc c

/-- The analyzer's accumulated state (lines 268-275). -/
structure RunState where
  total : Nat
  withIssues : Nat
  freqDeclared : List (String × Nat)
  freqInputs : List (String × Nat)
  freqCsv : List (String × Nat)
  rows : List CRow
deriving DecidableEq

/-- The initial analyzer state. -/
def initState : RunState :=
  { total := 0, withIssues := 0, freqDeclared := [], freqInputs := [],
    freqCsv := [], rows := [] }

/-- The body of the per-country loop for a dict entry (lines 282-315), after
the `total` increment: the net effect of one iteration on the state. -/
def stepBody (oecdIdx : Option OecdIdx) (required_inputs : List String)
    (show_ok : Bool) (st : RunState) (k : String) (entry : Value) : RunState :=
  let iso2 := pyUpper (pyStrip k)
  let a := analyze_country iso2 entry required_inputs
  let name := a.2.1
  let declared_missing := a.2.2.1
  let missing_inputs := a.2.2.2
  let csvPart : Option String × Option String × List String :=
    match oecdIdx with
    | none => (none, none, [])
    | some idx =>
      match resolveIso3 entry iso2 with
      | none => (none, none, ["no_iso3_mapping"])
      | some i3 =>
        let c := check_oecd_csv_for_iso3 i3 idx
        (some i3, c.2.1, if c.1 then [] else c.2.2)
  let iso3 := csvPart.1
  let csv_year := csvPart.2.1
  let csv_issues := csvPart.2.2
  let has_issues := !declared_missing.isEmpty || !missing_inputs.isEmpty
    || !csv_issues.isEmpty
  { total := st.total
    withIssues := if has_issues then st.withIssues + 1 else st.withIssues
    freqDeclared := cincMany st.freqDeclared declared_missing
    freqInputs := cincMany st.freqInputs missing_inputs
    freqCsv :=
      match oecdIdx with
      | none => st.freqCsv
      | some _ => cincMany st.freqCsv (csv_issues.map issue_key)
    rows :=
      if has_issues || show_ok then
        st.rows ++ [{ iso2 := iso2, name := name, declared := declared_missing,
                      missingInputs := missing_inputs, iso3 := iso3,
                      csvYear := csv_year, csvIssues := csv_issues }]
      else st.rows }

/-- One iteration of the per-country loop (lines 277-315): count the entry,
then skip it when it is not a dict. -/
def stepCountry (oecdIdx : Option OecdIdx) (required_inputs : List String)
    (show_ok : Bool) (st : RunState) (kv : String × Value) : RunState :=
  match kv.2 with
  | .vdict _ => stepBody oecdIdx required_inputs show_ok
      { st with total := st.total + 1 } kv.1 kv.2
  | _ => { st with total := st.total + 1 }

/-- The whole per-country loop. -/
def processCountries (countries : List (String × Value)) (oecdIdx : Option OecdIdx)
    (required_inputs : List String) (show_ok : Bool) : RunState :=
  countries.foldl (stepCountry oecdIdx required_inputs show_ok) initState

/-- `row_score` (lines 318-320). -/
def row_score (r : CRow) : Int :=
  -((r.declared.length : Int) + (r.missingInputs.length : Int) + (r.csvIssues.length : Int))

/-- The sort key comparison of line 322: ascending `(row_score, iso2)`. -/
def rowLe (a b : CRow) : Bool :=
  decide (row_score a < row_score b ∨ (row_score a = row_score b ∧ a.iso2 ≤ b.iso2))

/-- `rows.sort(key=lambda r: (row_score(r), r[0]))` (line 322); Python's
stable sort modelled by the stable `mergeSort`. -/
def sortRows (rows : List CRow) : List CRow :=
  rows.mergeSort rowLe

/-- `Counter.most_common()` (lines 376, 383, 391): a stable sort of the
insertion-ordered entries by descending count. -/
def most_common (c : List (String × Nat)) : List (String × Nat) :=
  c.mergeSort (fun a b => decide (b.2 ≤ a.2))

/-- Python `s.split(",")` on the character list. -/
def splitOnComma : List Char → List (List Char)
  | [] => [[]]
  | c :: rest =>
    match splitOnComma rest with
    | [] => [[]]
    | g :: gs => if c = ',' then [] :: g :: gs else (c :: g) :: gs

/-- Line 251/252: `[x.strip() for x in s.split(",") if x.strip()]`. -/
def parseCsvArg (s : String) : List String :=
  ((splitOnComma s.data).map (fun cs => pyStrip (String.mk cs))).filter (fun x => !x.isEmpty)

/-- The two fatal load-time abort channels of `main`. -/
inductive RunError where
  | structureError
  | schemaError
deriving DecidableEq

/-- The load-and-analyze part of `main` (lines 249-315): parse the two CSV
argument lists, check that the bundle's `countries` value is a dict
(`SystemExit` at line 258, modelled as `structureError`), load the OECD CSV
when supplied (a load failure is re-raised as `SystemExit` at line 266,
modelled as `schemaError`), then run the per-country loop. -/
def mainRun (data : List (String × Value)) (required_inputs_arg required_ages_arg : String)
    (oecdCsv : Option (List String × List CsvRow)) (show_ok : Bool) :
    Except RunError RunState :=
  let required_inputs := parseCsvArg required_inputs_arg
  let required_ages := parseCsvArg required_ages_arg
  match data.lookup "countries" with
  | some (.vdict countries) =>
    match oecdCsv with
    | none => Except.ok (processCountries countries none required_inputs show_ok)
    | some (fns, csvRows) =>
      match load_oecd_population_csv fns csvRows required_ages with
      | .error _ => Except.error RunError.schemaError
      | .ok idx => Except.ok (processCountries countries (some idx) required_inputs show_ok)
  | _ => Except.error RunError.structureError

/-! ### Spec-side definitions (refinement targets) and concrete fixtures. -/

/-- Spec 4.4: the sex series `sex` at period `year` of region `iso3`
"contains a finite value for every required age band", where an age band
counts as absent-or-non-finite if it is missing from the index or stored as
NaN (the spec's own definition, line 50 of the spec). -/
def coversAllRequired (idx : OecdIdx) (iso3 year sex : String) : Bool :=
  idx.required_ages.all (fun a =>
    match (((((idx.by_iso3.lookup iso3).getD []).lookup year).getD []).lookup sex
        |>.getD []).lookup a with
    | some v => !v.isnan
    | none => false)

/-- One sex block of the issue list, with the sex-presence test taken at the
latest-period block (what the code does). -/
def bandIssue (req : List String) (yb : SexMap) (sex_code : String)
    (missingSexLabel missingAgesLabel : String) : List String :=
  match yb.lookup sex_code with
  | none => [missingSexLabel]
  | some am =>
    let missing := req.filter (fun a =>
      match am.lookup a with
      | none => true
      | some v => v.isnan)
    if missing.isEmpty then []
    else [missingAgesLabel ++ String.intercalate "|" missing]

/-- The issue list of claim C4, amended: `sin_filas_iso3` when the region has
no recorded periods; otherwise, for each sex code in the order `_T`, `_M`,
`_F`, the missing-sex issue when that sex has no entry at the latest period,
else the missing-ages issue listing the required bands absent or stored as
NaN at that period. -/
def amendedIssues (idx : OecdIdx) (iso3 : String) : List String :=
  match latestPeriod ((idx.years_by_iso3.lookup iso3).getD []) with
  | none => ["sin_filas_iso3"]
  | some y =>
    let yb := (((idx.by_iso3.lookup iso3).getD []).lookup y).getD []
    bandIssue idx.required_ages yb "_T" "falta_sex_T" "faltan_edades_T:"
      ++ bandIssue idx.required_ages yb "_M" "falta_sex_M" "faltan_edades_M:"
      ++ bandIssue idx.required_ages yb "_F" "falta_sex_F" "faltan_edades_F:"

/-- One sex block of the issue list as claim C4 words it: the missing-sex
issue when that sex code "was never observed for the region" (i.e. it is not
in the per-region sex-code set), else the missing-ages issue. -/
def claimedBandIssue (req : List String) (observedSexes : List String) (yb : SexMap)
    (sex_code : String) (missingSexLabel missingAgesLabel : String) : List String :=
  if ¬ observedSexes.contains sex_code then [missingSexLabel]
  else
    let am := (yb.lookup sex_code).getD []
    let missing := req.filter (fun a =>
      match am.lookup a with
      | none => true
      | some v => v.isnan)
    if missing.isEmpty then []
    else [missingAgesLabel ++ String.intercalate "|" missing]

/-- The issue list exactly as claim C4 states it. -/
def claimedIssues (idx : OecdIdx) (iso3 : String) : List String :=
  match latestPeriod ((idx.years_by_iso3.lookup iso3).getD []) with
  | none => ["sin_filas_iso3"]
  | some y =>
    let obs := (idx.sexes_by_iso3.lookup iso3).getD []
    let yb := (((idx.by_iso3.lookup iso3).getD []).lookup y).getD []
    claimedBandIssue idx.required_ages obs yb "_T" "falta_sex_T" "faltan_edades_T:"
      ++ claimedBandIssue idx.required_ages obs yb "_M" "falta_sex_M" "faltan_edades_M:"
      ++ claimedBandIssue idx.required_ages obs yb "_F" "falta_sex_F" "faltan_edades_F:"

/-- Four-level lookup into the built index:
`by_iso3[iso3][year][sex][age]`. -/
def lookup4 (d : List (String × YearMap)) (iso3 year sex age : String) : Option PyFloat :=
  ((((d.lookup iso3).getD []).lookup year).getD [] |>.lookup sex).getD [] |>.lookup age

/-- A row's total issue count: declared + computed-input + demographic. -/
def totalIssues (r : CRow) : Nat :=
  r.declared.length + r.missingInputs.length + r.csvIssues.length

/-- Fixture: a region with complete `_T` coverage at its only period. -/
def idxC1 : OecdIdx :=
  { by_iso3 := [("ESP", [("2020", [("_T", [("Y_LE4", PyFloat.finite 100 1)])])])],
    years_by_iso3 := [("ESP", ["2020"])],
    sexes_by_iso3 := [("ESP", ["_T"])],
    required_ages := ["Y_LE4"] }

/-- Fixture rows: `_M` is observed for the region (period 1999) but has no
entry at the latest period 2000. -/
def rowsC4 : List CsvRow :=
  [{ refArea := some "ESP", sex := some "_T", age := some "A",
     timePeriod := some "2000", obsValue := some "1" },
   { refArea := some "ESP", sex := some "_M", age := some "A",
     timePeriod := some "1999", obsValue := some "1" }]

/-- The index `load_oecd_population_csv` builds from `rowsC4` with required
ages `A`, `B`. -/
def idxC4 : OecdIdx :=
  { by_iso3 := [("ESP", [("2000", [("_T", [("A", PyFloat.finite 1 1)])]),
                         ("1999", [("_M", [("A", PyFloat.finite 1 1)])])])],
    years_by_iso3 := [("ESP", ["2000", "1999"])],
    sexes_by_iso3 := [("ESP", ["_T", "_M"])],
    required_ages := ["A", "B"] }



theorem pyStrip_eq_empty_iff (s : String) :
    pyStrip s = "" ↔ ∀ c ∈ s.data, pyIsSpace c = true := by
  unfold pyStrip
  constructor
  · intro h c hc
    have h0 : ((s.data.dropWhile pyIsSpace).reverse.dropWhile pyIsSpace).reverse = [] := by
      have := congrArg String.data h
      simpa using this
    have h1 : (s.data.dropWhile pyIsSpace).reverse.dropWhile pyIsSpace = [] := by
      simpa using congrArg List.reverse h0
    have h2 : ∀ x ∈ (s.data.dropWhile pyIsSpace).reverse, pyIsSpace x = true :=
      List.dropWhile_eq_nil_iff.mp h1
    have h3 : ∀ x ∈ s.data.dropWhile pyIsSpace, pyIsSpace x = true := by
      intro x hx
      exact h2 x (List.mem_reverse.mpr hx)
    have h4 : ∀ x ∈ s.data, pyIsSpace x = true := by
      intro x hx
      rcases (List.takeWhile_append_dropWhile (p := pyIsSpace) (l := s.data)) ▸ hx with hx'
      have : x ∈ s.data.takeWhile pyIsSpace ++ s.data.dropWhile pyIsSpace := by
        rw [List.takeWhile_append_dropWhile]; exact hx
      rcases List.mem_append.mp this with h5 | h5
      · exact List.mem_takeWhile_imp h5
      · exact h3 x h5
    exact h4 c hc
  · intro h
    have h1 : s.data.dropWhile pyIsSpace = [] := List.dropWhile_eq_nil_iff.mpr h
    simp [h1]


/-- C2: `is_missing_value v` is true exactly for null, float NaN, and
whitespace-only (including empty) strings; in particular it is false for `0`,
`False`, `"0"`, and every finite float. -/
theorem c2_is_missing_value_spec :
    (∀ v : Value, is_missing_value v = true ↔
      (v = Value.vnull ∨ v = Value.vfloat PyFloat.nan ∨
        ∃ s, v = Value.vstr s ∧ ∀ c ∈ s.data, pyIsSpace c = true)) ∧
    is_missing_value (Value.vint 0) = false ∧
    is_missing_value (Value.vbool false) = false ∧
    is_missing_value (Value.vstr "0") = false ∧
    (∀ num den, is_missing_value (Value.vfloat (PyFloat.finite num den)) = false) := by
  refine ⟨?_, rfl, rfl, ?_, fun num den => rfl⟩
  · intro v
    cases v with
    | vnull => simp [is_missing_value]
    | vbool b => simp [is_missing_value]
    | vint n => simp [is_missing_value]
    | vfloat x => cases x <;> simp [is_missing_value, PyFloat.isnan]
    | vstr s =>
      simp only [is_missing_value, beq_iff_eq, pyStrip_eq_empty_iff, Value.vstr.injEq]
      constructor
      · intro h
        exact Or.inr (Or.inr ⟨s, rfl, h⟩)
      · rintro (h | h | ⟨t, ht, hall⟩)
        · exact absurd h (by simp)
        · exact absurd h (by simp)
        · cases ht; exact hall
    | vlist xs => simp [is_missing_value]
    | vdict kvs => simp [is_missing_value]
  · show (pyStrip "0" == "") = false
    rfl

/-- C8 counterexample: the region-code crosswalk has 38 entries, not 37. -/
theorem c8_size_counterexample :
    ISO2_TO_ISO3.length = 38 ∧ ¬ ISO2_TO_ISO3.length = 37 := by
  constructor
  · rfl
  · intro h
    have h38 : ISO2_TO_ISO3.length = 38 := rfl
    omega

/-- C8 amended: the crosswalk has exactly 38 entries (one per country the
simulator supports, per the source comment), with pairwise-distinct 2-letter
keys mapped to 3-letter values. -/
theorem c8_crosswalk_amended :
    ISO2_TO_ISO3.length = 38 ∧
    (∀ p ∈ ISO2_TO_ISO3, p.1.length = 2 ∧ p.2.length = 3) ∧
    (ISO2_TO_ISO3.map Prod.fst).Nodup := by
  refine ⟨rfl, by decide, by decide⟩


/-- The usable flag of `has_all_ages` is the emptiness of its missing list. -/
theorem has_all_ages_fst (req : List String) (yb : SexMap) (sex : String) :
    (has_all_ages req yb sex).1 = (has_all_ages req yb sex).2.isEmpty := rfl

/-- C9: the age-coverage check returns usable exactly when its issue list is
empty. -/
theorem c9_usable_iff_no_issues (iso3 : String) (idx : OecdIdx) :
    ((check_oecd_csv_for_iso3 iso3 idx).1 = true) ↔
      ((check_oecd_csv_for_iso3 iso3 idx).2.2 = []) := by
  simp only [check_oecd_csv_for_iso3]
  cases hl : latestPeriod ((idx.years_by_iso3.lookup iso3).getD []) with
  | none => simp
  | some y =>
    simp only
    cases hT : (has_all_ages idx.required_ages
        ((((idx.by_iso3.lookup iso3).getD []).lookup y).getD []) "_T").1 with
    | true => simp
    | false =>
      rw [if_neg (by simp)]
      cases hMF : ((has_all_ages idx.required_ages
            ((((idx.by_iso3.lookup iso3).getD []).lookup y).getD []) "_M").1 &&
          (has_all_ages idx.required_ages
            ((((idx.by_iso3.lookup iso3).getD []).lookup y).getD []) "_F").1) with
      | true => simp
      | false =>
        rw [if_neg (by simp)]
        simp only [Bool.false_eq_true, false_iff]
        intro hnil
        rcases List.append_eq_nil.mp hnil with ⟨hTM, hF⟩
        rcases List.append_eq_nil.mp hTM with ⟨hTpart, hM⟩
        have hTmiss : (has_all_ages idx.required_ages
            ((((idx.by_iso3.lookup iso3).getD []).lookup y).getD []) "_T").2.isEmpty = false := by
          rw [← has_all_ages_fst]
          exact hT
        rcases hopt : ((((idx.by_iso3.lookup iso3).getD []).lookup y).getD []).lookup "_T"
          with _ | am
        · rw [hopt] at hTpart
          simp at hTpart
        · rw [hopt] at hTpart
          simp only [Option.isNone_some, if_false] at hTpart
          rw [hTmiss] at hTpart
          simp at hTpart

/-- The usable flag of `has_all_ages` at the year block of `year` agrees with
the spec-side coverage predicate. -/
theorem has_all_ages_fst_eq_covers (idx : OecdIdx) (iso3 y sex : String) :
    (has_all_ages idx.required_ages
        ((((idx.by_iso3.lookup iso3).getD []).lookup y).getD []) sex).1
      = coversAllRequired idx iso3 y sex := by
  simp only [has_all_ages, coversAllRequired]
  rw [Bool.eq_iff_iff]
  simp only [List.isEmpty_eq_true, List.filter_eq_nil_iff, List.all_eq_true]
  constructor
  · intro h a ha
    have h1 := h a ha
    cases hv : (((((idx.by_iso3.lookup iso3).getD []).lookup y).getD []).lookup sex
        |>.getD []).lookup a with
    | none => rw [hv] at h1; simp at h1
    | some v => rw [hv] at h1; simpa using h1
  · intro h a ha
    have h1 := h a ha
    cases hv : (((((idx.by_iso3.lookup iso3).getD []).lookup y).getD []).lookup sex
        |>.getD []).lookup a with
    | none => rw [hv] at h1; simp at h1
    | some v => rw [hv] at h1; simpa using h1

/-- C1: at a resolved latest period, complete `_T` coverage (finite value for
every required age band) gives usable with no issues regardless of `_M`/`_F`;
failing that, complete `_M` and `_F` coverage also gives usable with no
issues. -/
theorem c1_usable_paths (iso3 : String) (idx : OecdIdx) (y : String)
    (hy : latestPeriod ((idx.years_by_iso3.lookup iso3).getD []) = some y) :
    (coversAllRequired idx iso3 y "_T" = true →
      check_oecd_csv_for_iso3 iso3 idx = (true, some y, [])) ∧
    (coversAllRequired idx iso3 y "_M" = true → coversAllRequired idx iso3 y "_F" = true →
      check_oecd_csv_for_iso3 iso3 idx = (true, some y, [])) := by
  simp only [check_oecd_csv_for_iso3, hy]
  constructor
  · intro hT
    rw [← has_all_ages_fst_eq_covers] at hT
    rw [if_pos hT]
  · intro hM hF
    rw [← has_all_ages_fst_eq_covers] at hM hF
    by_cases hT : (has_all_ages idx.required_ages
        ((((idx.by_iso3.lookup iso3).getD []).lookup y).getD []) "_T").1 = true
    · rw [if_pos hT]
    · rw [if_neg hT, if_pos (by rw [hM, hF]; rfl)]

/-- C1 witness: a concrete region with complete `_T` coverage at its only
period resolves to usable with no issues. -/
theorem c1_usable_paths_witness :
    check_oecd_csv_for_iso3 "ESP" idxC1 = (true, some "2020", []) :=
  (c1_usable_paths "ESP" idxC1 "2020" (by decide)).1 (by decide)

/-- `pyMaxStr` returns an element of its inputs that is an upper bound of all
of them. -/
theorem pyMaxStr_spec : ∀ (xs : List String) (x0 : String),
    (pyMaxStr xs x0 = x0 ∨ pyMaxStr xs x0 ∈ xs) ∧
    x0 ≤ pyMaxStr xs x0 ∧ ∀ y ∈ xs, y ≤ pyMaxStr xs x0
  | [], x0 => by simp [pyMaxStr]
  | a :: as, x0 => by
    have step : pyMaxStr (a :: as) x0 = pyMaxStr as (if x0 < a then a else x0) := rfl
    by_cases h : x0 < a
    · rw [if_pos h] at step
      rcases pyMaxStr_spec as a with ⟨hmem, hle, hall⟩
      rw [step]
      refine ⟨?_, le_trans h.le hle, ?_⟩
      · rcases hmem with h1 | h1
        · exact Or.inr (by rw [h1]; exact List.mem_cons_self a as)
        · exact Or.inr (List.mem_cons_of_mem a h1)
      · intro y hy
        rcases List.mem_cons.mp hy with h2 | h2
        · rw [h2]; exact hle
        · exact hall y h2
    · rw [if_neg h] at step
      rcases pyMaxStr_spec as x0 with ⟨hmem, hle, hall⟩
      rw [step]
      refine ⟨?_, hle, ?_⟩
      · rcases hmem with h1 | h1
        · exact Or.inl h1
        · exact Or.inr (List.mem_cons_of_mem a h1)
      · intro y hy
        rcases List.mem_cons.mp hy with h2 | h2
        · rw [h2]; exact le_trans (le_of_not_lt h) hle
        · exact hall y h2

/-- `pyMaxByInt` returns one of its inputs whose key bounds all keys. -/
theorem pyMaxByInt_spec : ∀ (ps : List (String × Int)) (p0 : String × Int),
    (pyMaxByInt ps p0 = p0 ∨ pyMaxByInt ps p0 ∈ ps) ∧
    p0.2 ≤ (pyMaxByInt ps p0).2 ∧ ∀ p ∈ ps, p.2 ≤ (pyMaxByInt ps p0).2
  | [], p0 => by simp [pyMaxByInt]
  | a :: as, p0 => by
    have step : pyMaxByInt (a :: as) p0 = pyMaxByInt as (if p0.2 < a.2 then a else p0) := rfl
    by_cases h : p0.2 < a.2
    · rw [if_pos h] at step
      rcases pyMaxByInt_spec as a with ⟨hmem, hle, hall⟩
      rw [step]
      refine ⟨?_, le_trans h.le hle, ?_⟩
      · rcases hmem with h1 | h1
        · exact Or.inr (by rw [h1]; exact List.mem_cons_self a as)
        · exact Or.inr (List.mem_cons_of_mem a h1)
      · intro p hp
        rcases List.mem_cons.mp hp with h2 | h2
        · rw [h2]; exact hle
        · exact hall p h2
    · rw [if_neg h] at step
      rcases pyMaxByInt_spec as p0 with ⟨hmem, hle, hall⟩
      rw [step]
      refine ⟨?_, hle, ?_⟩
      · rcases hmem with h1 | h1
        · exact Or.inl h1
        · exact Or.inr (List.mem_cons_of_mem a h1)
      · intro p hp
        rcases List.mem_cons.mp hp with h2 | h2
        · rw [h2]; exact le_trans (le_of_not_lt h) hle
        · exact hall p h2

/-- Concrete evaluation of the latest-period resolver on the spec's example
set: `"2."` does not parse, so the string-max path runs, and the
lexicographic maximum is `"2010"` (since `'.' < '0'`). -/
theorem latestPeriod_example_eval :
    latestPeriod ["1999", "2010", "2.", "2001"] = some "2010" := by
  have hA : ("1999" : String) < "2010" := String.lt_iff_toList_lt.mpr (by decide)
  have hB : ¬ ("2010" : String) < "2." := fun h =>
    absurd (String.lt_iff_toList_lt.mp h) (by decide)
  have hC : ¬ ("2010" : String) < "2001" := fun h =>
    absurd (String.lt_iff_toList_lt.mp h) (by decide)
  simp only [latestPeriod]
  rw [if_neg (by decide)]
  show some (pyMaxStr ["2.", "2001"] (if ("1999" : String) < "2010" then "2010" else "1999"))
      = some "2010"
  rw [if_pos hA]
  show some (pyMaxStr ["2001"] (if ("2010" : String) < "2." then "2." else "2010")) = some "2010"
  rw [if_neg hB]
  show some (pyMaxStr [] (if ("2010" : String) < "2001" then "2001" else "2010")) = some "2010"
  rw [if_neg hC]
  rfl

/-- C3 counterexample: on `{"1999","2010","2.","2001"}` the resolver follows
the string-max path but returns `"2010"`, because `"2." < "2010"`
lexicographically — `"2."` does not beat `"2010"` as the claim states. -/
theorem c3_lex_example_counterexample :
    latestPeriod ["1999", "2010", "2.", "2001"] = some "2010" ∧ ("2." : String) < "2010" :=
  ⟨latestPeriod_example_eval, String.lt_iff_toList_lt.mpr (by decide)⟩

/-- C3 amended: with a non-empty period set, the resolver picks the maximum
by integer value when every period parses, otherwise the lexicographic string
maximum; on the example set the string path runs and yields `"2010"`. -/
theorem c3_latest_period_amended (ys : List String) (hne : ys ≠ []) :
    ((∀ y ∈ ys, (safe_int y).isSome = true) →
      ∃ r, latestPeriod ys = some r ∧ r ∈ ys ∧
        ∀ y ∈ ys, (safe_int y).getD 0 ≤ (safe_int r).getD 0) ∧
    ((¬ ∀ y ∈ ys, (safe_int y).isSome = true) →
      ∃ r, latestPeriod ys = some r ∧ r ∈ ys ∧ ∀ y ∈ ys, y ≤ r) ∧
    latestPeriod ["1999", "2010", "2.", "2001"] = some "2010" := by
  cases ys with
  | nil => exact absurd rfl hne
  | cons y ys =>
    refine ⟨?_, ?_, latestPeriod_example_eval⟩
    · intro hall
      have hcond : (y :: ys).all (fun s => (safe_int s).isSome) = true :=
        List.all_eq_true.mpr hall
      show ∃ r, (if (y :: ys).all (fun s => (safe_int s).isSome) = true then _ else _) = some r ∧ _
      rw [if_pos hcond]
      rcases pyMaxByInt_spec (ys.map (fun s => (s, (safe_int s).getD 0)))
          (y, (safe_int y).getD 0) with ⟨hmem, hle, hall2⟩
      refine ⟨_, rfl, ?_, ?_⟩
      · rcases hmem with h1 | h1
        · rw [h1]; exact List.mem_cons_self y ys
        · rcases List.mem_map.mp h1 with ⟨s, hs, heq⟩
          rw [← heq]
          exact List.mem_cons_of_mem y hs
      · have hkey : (pyMaxByInt (ys.map (fun s => (s, (safe_int s).getD 0)))
            (y, (safe_int y).getD 0)).2 =
            (safe_int (pyMaxByInt (ys.map (fun s => (s, (safe_int s).getD 0)))
              (y, (safe_int y).getD 0)).1).getD 0 := by
          rcases hmem with h1 | h1
          · rw [h1]
          · rcases List.mem_map.mp h1 with ⟨s, _, heq⟩
            rw [← heq]
        intro z hz
        rcases List.mem_cons.mp hz with h2 | h2
        · rw [h2, ← hkey]; exact hle
        · rw [← hkey]
          exact hall2 _ (List.mem_map.mpr ⟨z, h2, rfl⟩)
    · intro hnall
      have hcond : ¬ ((y :: ys).all (fun s => (safe_int s).isSome) = true) := by
        intro h
        exact hnall (List.all_eq_true.mp h)
      show ∃ r, (if (y :: ys).all (fun s => (safe_int s).isSome) = true then _ else _) = some r ∧ _
      rw [if_neg hcond]
      rcases pyMaxStr_spec ys y with ⟨hmem, hle, hall2⟩
      refine ⟨_, rfl, ?_, ?_⟩
      · rcases hmem with h1 | h1
        · rw [h1]; exact List.mem_cons_self y ys
        · exact List.mem_cons_of_mem y h1
      · intro z hz
        rcases List.mem_cons.mp hz with h2 | h2
        · rw [h2]; exact hle
        · exact hall2 z h2

/-- C3 amended witness: the string path applied to the example set. -/
theorem c3_latest_period_amended_witness :
    (∃ r, latestPeriod ["1999", "2010", "2.", "2001"] = some r ∧
      r ∈ ["1999", "2010", "2.", "2001"] ∧
      ∀ y ∈ ["1999", "2010", "2.", "2001"], y ≤ r) ∧
    latestPeriod ["1999", "2010", "2.", "2001"] = some "2010" :=
  ⟨(c3_latest_period_amended ["1999", "2010", "2.", "2001"] (by decide)).2.1 (by decide),
   (c3_latest_period_amended ["1999", "2010", "2.", "2001"] (by decide)).2.2⟩

/-- The per-sex issue block built by `check_oecd_csv_for_iso3` equals
`bandIssue` at the same year block. -/
theorem checkBlock_eq_bandIssue (req : List String) (yb : SexMap)
    (sex lab1 lab2 : String) :
    (if (yb.lookup sex).isNone = true then [lab1]
     else if (has_all_ages req yb sex).2.isEmpty = true then []
     else [lab2 ++ String.intercalate "|" (has_all_ages req yb sex).2])
    = bandIssue req yb sex lab1 lab2 := by
  cases h : yb.lookup sex with
  | none => simp [bandIssue, h, has_all_ages]
  | some am => simp [bandIssue, h, has_all_ages]

/-- C4 counterexample: for region `ESP` of the index built from `rowsC4`,
`_M` was observed for the region (at period 1999) yet the code emits
`falta_sex_M`, because `_M` has no entry at the latest period 2000 — the
code's issue list differs from the claim's (which would emit
`faltan_edades_M:A|B`). -/
theorem c4_never_observed_counterexample :
    load_oecd_population_csv requiredCols rowsC4 ["A", "B"] = Except.ok idxC4 ∧
    ("_M" ∈ (idxC4.sexes_by_iso3.lookup "ESP").getD []) ∧
    (check_oecd_csv_for_iso3 "ESP" idxC4).2.2
      = ["faltan_edades_T:B", "falta_sex_M", "falta_sex_F"] ∧
    claimedIssues idxC4 "ESP" = ["faltan_edades_T:B", "faltan_edades_M:A|B", "falta_sex_F"] ∧
    ¬ (check_oecd_csv_for_iso3 "ESP" idxC4).2.2 = claimedIssues idxC4 "ESP" := by
  refine ⟨rfl, by decide, rfl, rfl, by decide⟩

/-- C4 amended: when the check is not usable, its issue list is exactly the
claim's list with the sex-presence test taken at the resolved latest period
(not "ever observed for the region"); and with no recorded periods the result
is exactly `(false, none, ["sin_filas_iso3"])`. -/
theorem c4_issue_list_amended (iso3 : String) (idx : OecdIdx) :
    (((check_oecd_csv_for_iso3 iso3 idx).1 = false) →
      (check_oecd_csv_for_iso3 iso3 idx).2.2 = amendedIssues idx iso3) ∧
    ((idx.years_by_iso3.lookup iso3).getD [] = [] →
      check_oecd_csv_for_iso3 iso3 idx = (false, none, ["sin_filas_iso3"])) := by
  constructor
  · simp only [check_oecd_csv_for_iso3, amendedIssues]
    cases hl : latestPeriod ((idx.years_by_iso3.lookup iso3).getD []) with
    | none => intro _; rfl
    | some y =>
      simp only
      cases hT : (has_all_ages idx.required_ages
          ((((idx.by_iso3.lookup iso3).getD []).lookup y).getD []) "_T").1 with
      | true =>
        rw [if_pos rfl]
        intro h
        exact absurd h (by simp)
      | false =>
        rw [if_neg (by simp)]
        cases hMF : ((has_all_ages idx.required_ages
              ((((idx.by_iso3.lookup iso3).getD []).lookup y).getD []) "_M").1 &&
            (has_all_ages idx.required_ages
              ((((idx.by_iso3.lookup iso3).getD []).lookup y).getD []) "_F").1) with
        | true =>
          rw [if_pos rfl]
          intro h
          exact absurd h (by simp)
        | false =>
          rw [if_neg (by simp)]
          intro _
          simp only [checkBlock_eq_bandIssue]
  · intro h
    simp [check_oecd_csv_for_iso3, h, latestPeriod]

/-- C4 amended witness: the amended description matches the code's issue list
on the concrete fixture. -/
theorem c4_issue_list_amended_witness :
    (check_oecd_csv_for_iso3 "ESP" idxC4).2.2 = amendedIssues idxC4 "ESP" :=
  (c4_issue_list_amended "ESP" idxC4).1 rfl

/-- Looking up the key just assigned by `aset` yields the assigned value. -/
theorem aset_lookup_self {α : Type} (k : String) (v : α) :
    ∀ d : List (String × α), (aset k v d).lookup k = some v
  | [] => by simp [aset, List.lookup]
  | (k2, w) :: rest => by
    by_cases h : k2 = k
    · simp [aset, h, List.lookup]
    · have hne : (k == k2) = false := by
        simp [Ne.symm h]
      simp [aset, h, List.lookup, hne, aset_lookup_self k v rest]

/-- Looking up the key just updated by `updWith` yields the updated value. -/
theorem updWith_lookup_self {α : Type} (d : List (String × α)) (k : String)
    (dflt : α) (f : α → α) :
    (updWith d k dflt f).lookup k = some (f ((d.lookup k).getD dflt)) :=
  aset_lookup_self k _ d

/-- C5: index construction fails exactly when the header is empty or misses a
required column; and a row whose value cell does not parse as a float is
stored as NaN rather than dropped. -/
theorem c5_schema_and_nan :
    (∀ (fns : List String) (rows : List CsvRow) (req : List String),
      (load_oecd_population_csv fns rows req).isOk = true ↔
        (fns ≠ [] ∧ ∀ c ∈ requiredCols, fns.contains c = true)) ∧
    (∀ (req : List String) (st : OecdIdx) (row : CsvRow),
      pyStrip (row.refArea.getD "") ≠ "" →
      pyStrip (row.timePeriod.getD "") ≠ "" →
      pyStrip (row.sex.getD "") ≠ "" →
      pyStrip (row.age.getD "") ≠ "" →
      req.contains (pyStrip (row.age.getD "")) = true →
      pyFloatOfString (pyStrip (row.obsValue.getD "")) = none →
      lookup4 (loadStep req st row).by_iso3 (pyStrip (row.refArea.getD ""))
        (pyStrip (row.timePeriod.getD "")) (pyStrip (row.sex.getD ""))
        (pyStrip (row.age.getD "")) = some PyFloat.nan) := by
  constructor
  · intro fns rows req
    simp only [load_oecd_population_csv]
    split
    · next h => simp [h, Except.isOk, Except.toBool]
    · next h =>
      split
      · next h2 =>
        simp only [Except.isOk, Except.toBool]
        constructor
        · intro hc
          exact absurd hc (by simp)
        · rintro ⟨-, hall⟩
          simp only [Bool.false_eq_true]
          apply h2
          rw [List.filter_eq_nil_iff]
          intro c hc
          simp only [decide_eq_true_eq, Classical.not_not]
          exact hall c hc
      · next h2 =>
        simp only [Except.isOk, Except.toBool, true_iff]
        refine ⟨h, ?_⟩
        have h3 := not_not.mp h2
        rw [List.filter_eq_nil_iff] at h3
        intro c hc
        have h4 := h3 c hc
        simpa using h4
  · intro req st row h1 h2 h3 h4 h5 h6
    simp only [loadStep]
    rw [if_neg (by simp [h1, h2, h3, h4])]
    rw [if_neg (by rw [h5]; simp)]
    simp only [lookup4, h6]
    rw [updWith_lookup_self]
    simp only [Option.getD_some]
    rw [updWith_lookup_self]
    simp only [Option.getD_some]
    rw [updWith_lookup_self]
    simp only [Option.getD_some]
    rw [aset_lookup_self]
    rfl

/-- C5 witness: a concrete malformed cell (`"abc"`) on an otherwise valid row
is stored as NaN, and the loader accepts the full header. -/
theorem c5_schema_and_nan_witness :
    lookup4 (loadStep ["A"]
        { by_iso3 := [], years_by_iso3 := [], sexes_by_iso3 := [], required_ages := ["A"] }
        { refArea := some "ESP", sex := some "_T", age := some "A",
          timePeriod := some "2020", obsValue := some "abc" }).by_iso3
      "ESP" "2020" "_T" "A" = some PyFloat.nan ∧
    (load_oecd_population_csv requiredCols [] ["A"]).isOk = true :=
  ⟨c5_schema_and_nan.2 ["A"]
      { by_iso3 := [], years_by_iso3 := [], sexes_by_iso3 := [], required_ages := ["A"] }
      { refArea := some "ESP", sex := some "_T", age := some "A",
        timePeriod := some "2020", obsValue := some "abc" }
      (by decide) (by decide) (by decide) (by decide) (by decide) (by decide),
   (c5_schema_and_nan.1 requiredCols [] ["A"]).mpr (by decide)⟩

/-- C6 counterexample: with a well-formed bundle and an empty required-inputs
spec, the run does not abort — there is no empty-spec `StructureError` in the
code. -/
theorem c6_empty_spec_counterexample :
    parseCsvArg "" = [] ∧
    mainRun [("countries", Value.vdict [])] "" "A" none false
      = Except.ok (processCountries [] none [] false) ∧
    ¬ mainRun [("countries", Value.vdict [])] "" "A" none false
      = Except.error RunError.structureError := by
  refine ⟨rfl, rfl, fun habs => ?_⟩
  exact Except.noConfusion
    ((rfl : mainRun [("countries", Value.vdict [])] "" "A" none false
        = Except.ok (processCountries [] none [] false)).symm.trans habs)

/-- C6 amended: the run aborts with a `StructureError` exactly when the
bundle's `countries` value is absent or not a mapping; an empty
required-inputs spec never aborts the run. -/
theorem c6_structure_abort_amended (data : List (String × Value))
    (ri ra : String) (csv : Option (List String × List CsvRow)) (so : Bool) :
    mainRun data ri ra csv so = Except.error RunError.structureError ↔
      ∀ kvs, ¬ data.lookup "countries" = some (Value.vdict kvs) := by
  simp only [mainRun]
  cases h : data.lookup "countries" with
  | none => simp
  | some v =>
    cases v with
    | vdict kvs =>
      simp only
      cases csv with
      | none =>
        constructor
        · intro habs
          simp at habs
        · intro hall
          exact absurd rfl (hall kvs)
      | some p =>
        rcases p with ⟨fns, rows⟩
        simp only
        constructor
        · intro habs
          split at habs
          · simp at habs
          · simp at habs
        · intro hall
          exact absurd rfl (hall kvs)
    | vnull => simp
    | vbool b => simp
    | vint n => simp
    | vfloat x => simp
    | vstr s => simp
    | vlist xs => simp

/-- The row comparison of line 322 is transitive. -/
theorem rowLe_trans (a b c : CRow) (hab : rowLe a b = true) (hbc : rowLe b c = true) :
    rowLe a c = true := by
  simp only [rowLe, decide_eq_true_eq] at hab hbc ⊢
  rcases hab with h1 | ⟨h1, h2⟩ <;> rcases hbc with h3 | ⟨h3, h4⟩
  · exact Or.inl (lt_trans h1 h3)
  · exact Or.inl (h3 ▸ h1)
  · exact Or.inl (h1 ▸ h3)
  · exact Or.inr ⟨h1.trans h3, le_trans h2 h4⟩

/-- The row comparison of line 322 is total. -/
theorem rowLe_total (a b : CRow) : (rowLe a b || rowLe b a) = true := by
  simp only [rowLe, Bool.or_eq_true, decide_eq_true_eq]
  rcases lt_trichotomy (row_score a) (row_score b) with h | h | h
  · exact Or.inl (Or.inl h)
  · rcases le_total a.iso2 b.iso2 with h2 | h2
    · exact Or.inl (Or.inr ⟨h, h2⟩)
    · exact Or.inr (Or.inr ⟨h.symm, h2⟩)
  · exact Or.inr (Or.inl h)

/-- A true row comparison means: strictly more issues first, or equal issues
and region codes in ascending order. -/
theorem rowLe_imp (a b : CRow) (h : rowLe a b = true) :
    totalIssues b < totalIssues a ∨ (totalIssues a = totalIssues b ∧ a.iso2 ≤ b.iso2) := by
  simp only [rowLe, decide_eq_true_eq] at h
  rcases h with h | ⟨h1, h2⟩
  · left
    simp only [row_score] at h
    simp only [totalIssues]
    omega
  · right
    refine ⟨?_, h2⟩
    simp only [row_score] at h1
    simp only [totalIssues]
    omega

/-- C7: the report sorts rows by descending total issue count with ties
broken by ascending region code, and each frequency table is in descending
count order with ties kept in first-encountered order (stability). -/
theorem c7_report_ordering (rows : List CRow) (c : List (String × Nat)) :
    List.Perm (sortRows rows) rows ∧
    (sortRows rows).Pairwise (fun a b =>
      totalIssues b < totalIssues a ∨ (totalIssues a = totalIssues b ∧ a.iso2 ≤ b.iso2)) ∧
    List.Perm (most_common c) c ∧
    (most_common c).Pairwise (fun a b => b.2 ≤ a.2) ∧
    (∀ a b : String × Nat, a.2 = b.2 →
      List.Sublist [a, b] c → List.Sublist [a, b] (most_common c)) := by
  have mtrans : ∀ (a b d : String × Nat),
      (fun a b : String × Nat => decide (b.2 ≤ a.2)) a b →
      (fun a b : String × Nat => decide (b.2 ≤ a.2)) b d →
      (fun a b : String × Nat => decide (b.2 ≤ a.2)) a d := by
    intro a b d h1 h2
    simp only [decide_eq_true_eq] at h1 h2 ⊢
    omega
  have mtotal : ∀ (a b : String × Nat),
      ((fun a b : String × Nat => decide (b.2 ≤ a.2)) a b ||
        (fun a b : String × Nat => decide (b.2 ≤ a.2)) b a) = true := by
    intro a b
    simp only [Bool.or_eq_true, decide_eq_true_eq]
    omega
  refine ⟨List.mergeSort_perm rows rowLe, ?_, List.mergeSort_perm c _, ?_, ?_⟩
  · exact (List.sorted_mergeSort rowLe_trans rowLe_total rows).imp
      (fun {a b} h => rowLe_imp a b h)
  · exact (List.sorted_mergeSort mtrans mtotal c).imp
      (fun {a b} h => of_decide_eq_true h)
  · intro a b hab hsub
    exact List.pair_sublist_mergeSort mtrans mtotal
      (decide_eq_true (le_of_eq hab.symm)) hsub

/-- C7 witness: stability on a two-element tie, and the sort of the empty row
list. -/
theorem c7_report_ordering_witness :
    List.Sublist [("x", 2), ("y", 2)] (most_common [("x", 2), ("y", 2)]) ∧
    List.Perm (sortRows []) [] :=
  ⟨(c7_report_ordering [] [("x", 2), ("y", 2)]).2.2.2.2 ("x", 2) ("y", 2) rfl
      (List.Sublist.refl _),
   (c7_report_ordering [] [("x", 2), ("y", 2)]).1⟩

/-- `stepBody` copies `total` through unchanged and reads no other part of a
shifted `total`. -/
theorem stepBody_total_shift (oi : Option OecdIdx) (ri : List String) (so : Bool)
    (st : RunState) (x : Nat) (k : String) (e : Value) :
    stepBody oi ri so { st with total := x } k e
      = { stepBody oi ri so st k e with total := x } := rfl

/-- One loop iteration on a state with shifted `total`. -/
theorem stepCountry_total_shift (oi : Option OecdIdx) (ri : List String) (so : Bool)
    (st : RunState) (u : Nat) (kv : String × Value) :
    stepCountry oi ri so { st with total := u } kv
      = { stepCountry oi ri so st kv with total := u + 1 } := by
  rcases kv with ⟨k, v⟩
  cases v <;> rfl

/-- A non-dict entry only increments `total`. -/
theorem stepCountry_nondict (oi : Option OecdIdx) (ri : List String) (so : Bool)
    (st : RunState) (k : String) (v : Value) (h : v.isDict = false) :
    stepCountry oi ri so st (k, v) = { st with total := st.total + 1 } := by
  cases v with
  | vdict kvs => simp [Value.isDict] at h
  | vnull => rfl
  | vbool b => rfl
  | vint n => rfl
  | vfloat x => rfl
  | vstr s => rfl
  | vlist xs => rfl

/-- Folding the loop over a state with shifted `total` shifts only `total`;
and each iteration adds exactly one to `total`. -/
theorem foldl_step_shift (oi : Option OecdIdx) (ri : List String) (so : Bool) :
    ∀ (post : List (String × Value)) (st : RunState) (u : Nat),
      List.foldl (stepCountry oi ri so) { st with total := u } post
        = { List.foldl (stepCountry oi ri so) st post with total := u + post.length } ∧
      (List.foldl (stepCountry oi ri so) st post).total = st.total + post.length
  | [], st, u => by constructor <;> simp
  | kv :: post, st, u => by
    constructor
    · rw [List.foldl_cons, List.foldl_cons]
      rw [stepCountry_total_shift]
      rw [(foldl_step_shift oi ri so post (stepCountry oi ri so st kv) (u + 1)).1]
      have hlen : u + 1 + post.length = u + (kv :: post).length := by
        simp
        omega
      rw [hlen]
    · rw [List.foldl_cons]
      rw [(foldl_step_shift oi ri so post (stepCountry oi ri so st kv)
        (stepCountry oi ri so st kv).total).2]
      have htot : (stepCountry oi ri so st kv).total = st.total + 1 := by
        rcases kv with ⟨k, v⟩
        cases v <;> rfl
      rw [htot]
      simp
      omega

/-- C10: an entry whose value is not a mapping is counted in the total of
analyzed countries but contributes no row, no frequency count, and no
issue flag. -/
theorem c10_nondict_skipped (oi : Option OecdIdx) (ri : List String) (so : Bool)
    (pre post : List (String × Value)) (k : String) (v : Value)
    (h : v.isDict = false) :
    (processCountries (pre ++ (k, v) :: post) oi ri so).total
      = (processCountries (pre ++ post) oi ri so).total + 1 ∧
    (processCountries (pre ++ (k, v) :: post) oi ri so).withIssues
      = (processCountries (pre ++ post) oi ri so).withIssues ∧
    (processCountries (pre ++ (k, v) :: post) oi ri so).freqDeclared
      = (processCountries (pre ++ post) oi ri so).freqDeclared ∧
    (processCountries (pre ++ (k, v) :: post) oi ri so).freqInputs
      = (processCountries (pre ++ post) oi ri so).freqInputs ∧
    (processCountries (pre ++ (k, v) :: post) oi ri so).freqCsv
      = (processCountries (pre ++ post) oi ri so).freqCsv ∧
    (processCountries (pre ++ (k, v) :: post) oi ri so).rows
      = (processCountries (pre ++ post) oi ri so).rows := by
  simp only [processCountries, List.foldl_append, List.foldl_cons]
  rw [stepCountry_nondict oi ri so _ k v h]
  rw [(foldl_step_shift oi ri so post (List.foldl (stepCountry oi ri so) initState pre)
    ((List.foldl (stepCountry oi ri so) initState pre).total + 1)).1]
  rw [(foldl_step_shift oi ri so post (List.foldl (stepCountry oi ri so) initState pre)
    ((List.foldl (stepCountry oi ri so) initState pre).total)).2]
  refine ⟨?_, rfl, rfl, rfl, rfl, rfl⟩
  simp
  omega

/-- C10 witness: a single null-valued entry is counted but otherwise
skipped. -/
theorem c10_nondict_skipped_witness :
    (processCountries [("XX", Value.vnull)] none [] false).total
      = (processCountries [] none [] false).total + 1 ∧
    (processCountries [("XX", Value.vnull)] none [] false).withIssues
      = (processCountries [] none [] false).withIssues ∧
    (processCountries [("XX", Value.vnull)] none [] false).freqDeclared
      = (processCountries [] none [] false).freqDeclared ∧
    (processCountries [("XX", Value.vnull)] none [] false).freqInputs
      = (processCountries [] none [] false).freqInputs ∧
    (processCountries [("XX", Value.vnull)] none [] false).freqCsv
      = (processCountries [] none [] false).freqCsv ∧
    (processCountries [("XX", Value.vnull)] none [] false).rows
      = (processCountries [] none [] false).rows :=
  c10_nondict_skipped none [] false [] [] "XX" Value.vnull rfl

end ReportMissing
